import Mathlib

/-!
Verification of the TUBECRAFT generator service against its specification.

The development shallowly embeds the Python sources under src/src/generator
(models.py, main.py, core/config.py, core/logging.py).  Pure validation
logic is translated into Lean functions; the HTTP handlers and the
background pipeline are translated into explicit functions over the
results of their external calls (the external adapter clients and the
persistence service are not part of the source tree, so their effects on
the episode record are modelled from the specification where noted).
-/

namespace Tubecraft

/-! ## Python string primitives

Helpers mirroring the Python string operations used by the sources:
str.strip, str.upper, slicing with [:200], and len (which counts code
points, as Lean String.length does). -/

/-- Whitespace characters removed by Python str.strip on ASCII input:
space, tab, newline, carriage return, vertical tab, form feed. -/
def pyIsSpace (c : Char) : Bool :=
  c = ' ' || c = '\t' || c = '\n' || c = '\r' || c = Char.ofNat 11 || c = Char.ofNat 12

/-- Python str.strip: remove leading and trailing whitespace. -/
def pyStrip (s : String) : String :=
  String.mk (((s.toList.dropWhile pyIsSpace).reverse.dropWhile pyIsSpace).reverse)

/-- Python str.upper for the ASCII range, as applied to configuration names. -/
def pyUpper (s : String) : String :=
  String.mk (s.toList.map Char.toUpper)

/-! ## Domain model (models.py) -/

/-- Content style enumeration from models.py. -/
inductive ContentStyle
  | educational | news | entertainment | podcast | tutorial | interview
deriving DecidableEq, Repr

/-- Episode generation status enumeration from models.py. -/
inductive GenerationStatus
  | draft | queued | generating_script | generating_audio | generating_video
  | completed | failed | cancelled
deriving DecidableEq, Repr

/-- Conversion of a stored status string into a GenerationStatus, as done by
the GenerationStatus constructor call in the get_episode handler; an
unrecognized string raises. -/
def GenerationStatus.ofString (s : String) : Except String GenerationStatus :=
  if s = "draft" then Except.ok GenerationStatus.draft
  else if s = "queued" then Except.ok GenerationStatus.queued
  else if s = "generating_script" then Except.ok GenerationStatus.generating_script
  else if s = "generating_audio" then Except.ok GenerationStatus.generating_audio
  else if s = "generating_video" then Except.ok GenerationStatus.generating_video
  else if s = "completed" then Except.ok GenerationStatus.completed
  else if s = "failed" then Except.ok GenerationStatus.failed
  else if s = "cancelled" then Except.ok GenerationStatus.cancelled
  else Except.error (s ++ " is not a valid GenerationStatus")

/-- Validated episode creation request (EpisodeRequest in models.py).
The voice speed is modelled as a rational number. -/
structure EpisodeRequest where
  title : String
  description : Option String
  duration_minutes : Int
  content_style : ContentStyle
  voice_speed : Rat
deriving DecidableEq, Repr

/-- Validation of the title field of EpisodeRequest, translated from
models.py: the Field constraints min_length=1 and max_length=500 are
applied by pydantic to the raw value first, then the
title_must_not_be_empty validator strips the value, rejects it when the
stripped value is empty, and returns the stripped value. -/
def EpisodeRequest.validate_title (v : String) : Except String String :=
  if v.length < 1 then Except.error "ensure this value has at least 1 characters"
  else if 500 < v.length then Except.error "ensure this value has at most 500 characters"
  else if pyStrip v = "" then Except.error "Title cannot be empty"
  else Except.ok (pyStrip v)

/-- Section of a generated script (ScriptSection in models.py). -/
structure ScriptSection where
  id : String
  type : String
  content : String
  duration_seconds : Int
  metadata : List (String × String) := []
deriving DecidableEq, Repr

/-- Field validation of a ScriptSection: duration_seconds carries ge=1. -/
def ScriptSection.validate (s : ScriptSection) : Except String ScriptSection :=
  if s.duration_seconds < 1 then
    Except.error "ensure this value is greater than or equal to 1"
  else Except.ok s

/-- Complete episode script (Script in models.py). -/
structure Script where
  title : String
  total_duration_seconds : Int
  sections : List ScriptSection
deriving DecidableEq, Repr

/-- The sections_must_not_be_empty validator from models.py. -/
def sections_must_not_be_empty (v : List ScriptSection) :
    Except String (List ScriptSection) :=
  if v.isEmpty then Except.error "Script must have at least one section"
  else Except.ok v

/-- The validate_total_duration validator from models.py.  It receives the
candidate value and the dictionary of previously validated fields; the
tolerance check runs only when that dictionary contains the sections
field, mirroring the guard if sections in values in the source. -/
def validate_total_duration (v : Int)
    (sectionsInValues : Option (List ScriptSection)) : Except String Int :=
  match sectionsInValues with
  | some sections =>
      let calculated_duration := (sections.map (fun s => s.duration_seconds)).sum
      if 30 < (v - calculated_duration).natAbs then
        Except.error "Total duration does not match sum of section durations"
      else Except.ok v
  | none => Except.ok v

/-- Construction of a Script, translated from models.py under pydantic
semantics: fields are validated in declaration order (title,
total_duration_seconds, sections, metadata), and each validator of a field
sees in values only the fields validated before it.  Because sections is
declared after total_duration_seconds, the validate_total_duration
validator runs with no sections entry in values, hence the none argument
below. -/
def Script.construct (title : String) (total_duration_seconds : Int)
    (sections : List ScriptSection) : Except String Script := do
  let t ← validate_total_duration total_duration_seconds none
  let vsections ← sections.mapM ScriptSection.validate
  let s ← sections_must_not_be_empty vsections
  Except.ok ⟨title, t, s⟩

/-! ## Configuration and structured logging (core/config.py, core/logging.py) -/

/-- Subset of the Settings object (core/config.py) consulted by the embedded
functions: the application version stamped on log records and the
configured log level name. -/
structure Settings where
  app_version : String := "1.0.0"
  log_level : String := "info"
deriving DecidableEq, Repr

/-- Dictionary assignment d[k] = v on a string-keyed dictionary, modelled
as an association list in which lookup finds the first matching key. -/
def dictSet (d : List (String × String)) (k v : String) :
    List (String × String) :=
  (k, v) :: d.filter (fun p => p.1 ≠ k)

/-- Dictionary lookup d[k]. -/
def dictGet (d : List (String × String)) (k : String) : Option String :=
  (d.find? (fun p => p.1 = k)).map (fun p => p.2)

/-- The add_service_info log processor from core/logging.py: stamps the
fixed service name and the configured application version onto every
event dictionary. -/
def add_service_info (s : Settings) (event_dict : List (String × String)) :
    List (String × String) :=
  dictSet (dictSet event_dict "service" "tubecraft-generator") "version" s.app_version

/-- Value of a Python module attribute, as far as the embedding needs to
distinguish: an integer level, a string, or some other object. -/
inductive PyValue
  | int (n : Int)
  | str (s : String)
  | dict
deriving DecidableEq, Repr

/-- Attributes of the Python standard library logging module whose names
contain no lowercase letter: these are exactly the attributes reachable by
getattr applied to an upper-cased name.  Besides the eight level
constants, the module exposes BASIC_FORMAT (a format string) and the
private style table with an upper-case name.  Modelled from the Python 3
standard library. -/
def loggingModuleAttr (name : String) : Option PyValue :=
  if name = "CRITICAL" then some (PyValue.int 50)
  else if name = "FATAL" then some (PyValue.int 50)
  else if name = "ERROR" then some (PyValue.int 40)
  else if name = "WARNING" then some (PyValue.int 30)
  else if name = "WARN" then some (PyValue.int 30)
  else if name = "INFO" then some (PyValue.int 20)
  else if name = "DEBUG" then some (PyValue.int 10)
  else if name = "NOTSET" then some (PyValue.int 0)
  else if name = "BASIC_FORMAT" then some (PyValue.str "%(levelname)s:%(name)s:%(message)s")
  else if name = "_STYLES" then some PyValue.dict
  else none

/-- Registered level names accepted by the logging module when a level is
given as a string (the keys of the internal name-to-level table).
Modelled from the Python 3 standard library. -/
def nameToLevel (s : String) : Option Int :=
  if s = "CRITICAL" then some 50
  else if s = "FATAL" then some 50
  else if s = "ERROR" then some 40
  else if s = "WARN" then some 30
  else if s = "WARNING" then some 30
  else if s = "INFO" then some 20
  else if s = "DEBUG" then some 10
  else if s = "NOTSET" then some 0
  else none

/-- Level-argument checking performed by logging.basicConfig: an integer is
accepted as is, a string must name a registered level, and any other
value raises.  Modelled from the Python 3 standard library. -/
def checkLevel : PyValue → Except String Int
  | PyValue.int n => Except.ok n
  | PyValue.str s =>
      match nameToLevel s with
      | some n => Except.ok n
      | none => Except.error ("Unknown level: " ++ s)
  | PyValue.dict => Except.error "Level not an integer or a valid string"

/-- Level selection in setup_logging (core/logging.py): the value of
getattr applied to the logging module, the upper-cased configured name,
and the default logging.INFO. -/
def setup_log_level (log_level : String) : PyValue :=
  match loggingModuleAttr (pyUpper log_level) with
  | some v => v
  | none => PyValue.int 20

/-- Outcome of the level-configuration part of setup_logging: the selected
value is handed to logging.basicConfig, which checks it. -/
def setup_logging_level (log_level : String) : Except String Int :=
  checkLevel (setup_log_level log_level)

/-- Request log event emitted on entry by the log_request_response
decorator (core/logging.py): the endpoint name, the positional arguments
rendered to text and truncated to 200 characters, and the keyword
arguments with any entry keyed password removed and every remaining value
rendered and truncated to 200 characters. -/
structure RequestLogEvent where
  endpoint : String
  args : String
  kwargs : List (String × String)
deriving DecidableEq, Repr

/-- Construction of the request log event from the decorator, translated
from core/logging.py. -/
def log_request_args (funcName : String) (args : String)
    (kwargs : List (String × String)) : RequestLogEvent :=
  { endpoint := funcName
    args := args.take 200
    kwargs := (kwargs.filter (fun p => p.1 ≠ "password")).map
      (fun p => (p.1, p.2.take 200)) }

/-- Log events emitted by the log_request_response decorator. -/
inductive ApiLogEvent
  | request (e : RequestLogEvent)
  | completed (endpoint : String)
  | failed (endpoint : String) (error : String) (error_type : String)
deriving DecidableEq, Repr

/-- The log_request_response decorator (core/logging.py) applied to a
wrapped call whose outcome is given: emits the request event, then either
the success event or the failure event carrying the error message and
error type name, and re-raises the original failure unchanged. -/
def log_request_response {α : Type} (funcName : String) (args : String)
    (kwargs : List (String × String)) (outcome : Except (String × String) α) :
    List ApiLogEvent × Except (String × String) α :=
  match outcome with
  | Except.ok a =>
      ([ApiLogEvent.request (log_request_args funcName args kwargs),
        ApiLogEvent.completed funcName], Except.ok a)
  | Except.error e =>
      ([ApiLogEvent.request (log_request_args funcName args kwargs),
        ApiLogEvent.failed funcName e.1 e.2], Except.error e)

/-! ## HTTP handlers (main.py) -/

/-- Result of an HTTP handler: either a response body or an HTTPException
with a status code and detail message. -/
inductive HttpResult (α : Type)
  | ok (body : α)
  | httpError (status_code : Int) (detail : String)
deriving DecidableEq, Repr

/-- Payload returned by the health_check handler. -/
structure HealthPayload where
  status : String
  timestamp : String
  service : String
  version : String
deriving DecidableEq, Repr

/-- The GET /health handler translated from main.py: a fixed payload built
from the current timestamp only; it consults no dependent service and no
configuration value. -/
def health_check (now : String) : HealthPayload :=
  { status := "healthy"
    timestamp := now
    service := "tubecraft-generator"
    version := "1.0.0" }

/-- Entry for one dependent service in the GET /status response: the
success shape carries status healthy and a details payload, the failure
shape carries status unhealthy and the error message. -/
structure ServiceEntry where
  status : String
  details : Option String
  error : Option String
deriving DecidableEq, Repr

/-- Construction of one service entry in service_status from the outcome
of that service health check. -/
def serviceEntry (r : Except String String) : ServiceEntry :=
  match r with
  | Except.ok d => { status := "healthy", details := some d, error := none }
  | Except.error e => { status := "unhealthy", details := none, error := some e }

/-- Response of the GET /status handler: the services dictionary is
projected onto its three keys ollama, database, tts. -/
structure StatusResponse where
  service : String
  timestamp : String
  ollama : ServiceEntry
  database : ServiceEntry
  tts : ServiceEntry
deriving DecidableEq, Repr

/-- The GET /status handler translated from main.py, as a function of the
outcomes of the three independent health-check probes: each probe is
wrapped in its own try/except, so one failure never affects the entries of
the other services or the response as a whole. -/
def service_status (now : String)
    (ollamaHC dbHC ttsHC : Except String String) : StatusResponse :=
  { service := "tubecraft-generator"
    timestamp := now
    ollama := serviceEntry ollamaHC
    database := serviceEntry dbHC
    tts := serviceEntry ttsHC }

/-- Episode row held by the persistence service, as read by the handlers
(identity and timestamps rendered as strings). -/
structure Episode where
  id : String
  title : String
  status : String
  created_at : String
  generation_completed_at : Option String := none
  audio_path : Option String := none
  video_path : Option String := none
  duration_seconds : Option Int := none
  error_message : Option String := none
deriving DecidableEq, Repr

/-- Response body for episode endpoints (EpisodeResponse in models.py). -/
structure EpisodeResponse where
  id : String
  title : String
  status : GenerationStatus
  created_at : String
  completed_at : Option String := none
  audio_path : Option String := none
  video_path : Option String := none
  duration_seconds : Option Int := none
  error_message : Option String := none
deriving DecidableEq, Repr

/-- The GET /episodes id handler translated from main.py, as a function of
the persistence lookup outcome: a raised lookup becomes HTTP 500, an
absent episode becomes HTTP 404 (the HTTPException raised inside the try
block is re-raised by the except HTTPException arm), and a present episode
is projected into the response shape, with an invalid stored status string
raising inside the try block and hence becoming HTTP 500. -/
def get_episode_endpoint (lookup : Except String (Option Episode)) :
    HttpResult EpisodeResponse :=
  match lookup with
  | Except.error e => HttpResult.httpError 500 e
  | Except.ok none => HttpResult.httpError 404 "Episode not found"
  | Except.ok (some ep) =>
      match GenerationStatus.ofString ep.status with
      | Except.error e => HttpResult.httpError 500 e
      | Except.ok st =>
          HttpResult.ok
            { id := ep.id
              title := ep.title
              status := st
              created_at := ep.created_at
              completed_at := ep.generation_completed_at
              audio_path := ep.audio_path
              video_path := ep.video_path
              duration_seconds := ep.duration_seconds
              error_message := ep.error_message }

/-- Outcome of the POST /episodes handler: the HTTP response together with
the background task scheduled on success (the episode id and the request
passed to generate_episode_content), or none when nothing was scheduled. -/
structure CreateOutcome where
  response : HttpResult EpisodeResponse
  scheduledTask : Option (String × EpisodeRequest)
deriving DecidableEq, Repr

/-- The POST /episodes handler translated from main.py, parameterized by
the create_episode operation of the persistence service: on success it
schedules the generation pipeline for the new episode and returns the id,
title, queued status and creation timestamp; on a raised creation it
returns HTTP 500 carrying the failure message and schedules nothing. -/
def create_episode_endpoint (request : EpisodeRequest)
    (create_episode_db :
      String → Option String → ContentStyle → Int → Except String Episode) :
    CreateOutcome :=
  match create_episode_db request.title request.description
      request.content_style request.duration_minutes with
  | Except.ok episode =>
      { response := HttpResult.ok
          { id := episode.id
            title := episode.title
            status := GenerationStatus.queued
            created_at := episode.created_at }
        scheduledTask := some (episode.id, request) }
  | Except.error e =>
      { response := HttpResult.httpError 500 e, scheduledTask := none }

/-! ## Background generation pipeline (main.py)

The generate_episode_content task.  The three adapter clients are not part
of the source tree, so the pipeline is parameterized by their outcomes;
the persistence operations it calls are modelled from the specification
below and are recorded in an operation trace. -/

/-- Script payload produced by the script-generation client, as consumed
by the orchestrator: a dictionary from which only the total_duration entry
is read (script.get with default 0); the rest of the payload is abstract. -/
structure ScriptPayload where
  total_duration : Option Int
  rest : String
deriving DecidableEq, Repr

/-- Mutable episode record as transformed by the pipeline persistence
calls. -/
structure EpisodeRecord where
  status : GenerationStatus
  script : Option ScriptPayload := none
  audio_path : Option String := none
  video_path : Option String := none
  duration_seconds : Option Int := none
  error_message : Option String := none
deriving DecidableEq, Repr

/-- Modelled from the spec: update_episode_status of the persistence
service (absent from the source tree) transitions the stored status
field. -/
def update_episode_status (r : EpisodeRecord) (s : GenerationStatus) :
    EpisodeRecord :=
  { r with status := s }

/-- Modelled from the spec: update_episode_script of the persistence
service (absent from the source tree) persists the generated script
payload against the episode. -/
def update_episode_script (r : EpisodeRecord) (sc : ScriptPayload) :
    EpisodeRecord :=
  { r with script := some sc }

/-- Modelled from the spec: complete_episode of the persistence service
(absent from the source tree) sets status completed and records the output
paths and the duration. -/
def complete_episode (r : EpisodeRecord) (audio_path video_path : String)
    (duration_seconds : Int) : EpisodeRecord :=
  { r with
    status := GenerationStatus.completed
    audio_path := some audio_path
    video_path := some video_path
    duration_seconds := some duration_seconds }

/-- Modelled from the spec: fail_episode of the persistence service
(absent from the source tree) sets status failed and records the error
message. -/
def fail_episode (r : EpisodeRecord) (e : String) : EpisodeRecord :=
  { r with status := GenerationStatus.failed, error_message := some e }

/-- One persistence call performed by the pipeline, in order. -/
inductive DbOp
  | updateStatus (s : GenerationStatus)
  | updateScript (sc : ScriptPayload)
  | complete (audio_path video_path : String) (duration_seconds : Int)
  | fail (message : String)
deriving DecidableEq, Repr

/-- Outcomes of the three generation clients, as seen by the pipeline: the
script client is called with title, description, duration and style; the
speech client with the script, the episode id and the voice speed; the
video client with the audio path, the script, the title and the episode
id.  An error value is the message of the raised exception. -/
structure PipelineEnv where
  generate_script : String → String → Int → ContentStyle → Except String ScriptPayload
  generate_audio : ScriptPayload → String → Rat → Except String String
  create_video : String → ScriptPayload → String → String → Except String String

/-- Result of one pipeline run: the final episode record, the trace of
persistence calls in order, and whether the speech and video clients were
invoked. -/
structure PipelineResult where
  record : EpisodeRecord
  dbOps : List DbOp
  audioCalled : Bool
  videoCalled : Bool
deriving DecidableEq, Repr

/-- Pipeline environment whose three clients ignore their arguments and
return fixed outcomes; used to instantiate pipeline theorems at concrete
inputs. -/
def constEnv (scriptRes : Except String ScriptPayload)
    (audioRes videoRes : Except String String) : PipelineEnv :=
  { generate_script := fun _ _ _ _ => scriptRes
    generate_audio := fun _ _ _ => audioRes
    create_video := fun _ _ _ _ => videoRes }

/-- The generate_episode_content background task translated from main.py:
set status generating_script, call the script client, set status
generating_audio and persist the script, call the speech client, set
status generating_video, call the video client, then complete the episode
with both paths and the total_duration entry of the script (default 0);
any raised step short-circuits the rest and calls fail_episode with the
exception message.  The persistence calls themselves are modelled as
succeeding. -/
def generate_episode_content (env : PipelineEnv) (episode_id : String)
    (request : EpisodeRequest) (r0 : EpisodeRecord) : PipelineResult :=
  let r1 := update_episode_status r0 GenerationStatus.generating_script
  match env.generate_script request.title (request.description.getD "")
      request.duration_minutes request.content_style with
  | Except.error e =>
      { record := fail_episode r1 e
        dbOps := [DbOp.updateStatus GenerationStatus.generating_script, DbOp.fail e]
        audioCalled := false, videoCalled := false }
  | Except.ok script =>
    let r2 := update_episode_script
      (update_episode_status r1 GenerationStatus.generating_audio) script
    match env.generate_audio script episode_id request.voice_speed with
    | Except.error e =>
        { record := fail_episode r2 e
          dbOps := [DbOp.updateStatus GenerationStatus.generating_script,
                    DbOp.updateStatus GenerationStatus.generating_audio,
                    DbOp.updateScript script, DbOp.fail e]
          audioCalled := true, videoCalled := false }
    | Except.ok audio_path =>
      let r3 := update_episode_status r2 GenerationStatus.generating_video
      match env.create_video audio_path script request.title episode_id with
      | Except.error e =>
          { record := fail_episode r3 e
            dbOps := [DbOp.updateStatus GenerationStatus.generating_script,
                      DbOp.updateStatus GenerationStatus.generating_audio,
                      DbOp.updateScript script,
                      DbOp.updateStatus GenerationStatus.generating_video,
                      DbOp.fail e]
            audioCalled := true, videoCalled := true }
      | Except.ok video_path =>
          { record := complete_episode r3 audio_path video_path
              (script.total_duration.getD 0)
            dbOps := [DbOp.updateStatus GenerationStatus.generating_script,
                      DbOp.updateStatus GenerationStatus.generating_audio,
                      DbOp.updateScript script,
                      DbOp.updateStatus GenerationStatus.generating_video,
                      DbOp.complete audio_path video_path
                        (script.total_duration.getD 0)]
            audioCalled := true, videoCalled := true }

/-- Episode-creation operation of the persistence service that ignores its
arguments and returns a fixed outcome; used to instantiate the creation
endpoint theorem at a concrete input. -/
def constCreateDb (r : Except String Episode) :
    String → Option String → ContentStyle → Int → Except String Episode :=
  fun _ _ _ _ => r

/-! ## Auxiliary lemmas -/

/-- Dropping a prefix never lengthens a list. -/
theorem length_dropWhile_le (p : Char → Bool) (l : List Char) :
    (l.dropWhile p).length ≤ l.length := by
  induction l with
  | nil => simp [List.dropWhile]
  | cons a l ih =>
    cases h : p a
    · simp [List.dropWhile, h]
    · simp only [List.dropWhile, h, List.length_cons]
      exact Nat.le_succ_of_le ih

/-- Stripping never lengthens a string. -/
theorem pyStrip_length_le (s : String) : (pyStrip s).length ≤ s.length := by
  have h1 := length_dropWhile_le pyIsSpace s.toList
  have h2 := length_dropWhile_le pyIsSpace (s.toList.dropWhile pyIsSpace).reverse
  simp only [pyStrip, String.length, String.toList] at *
  simpa using le_trans (by simpa using h2) h1

/-- A string of whitespace strips to the empty string. -/
theorem pyStrip_eq_empty_of_all_space (s : String)
    (h : s.toList.all pyIsSpace = true) : pyStrip s = "" := by
  have hd : List.dropWhile pyIsSpace s.data = [] := by
    rw [List.dropWhile_eq_nil_iff]
    intro x hx
    exact List.all_eq_true.mp h x hx
  simp [pyStrip, String.toList, hd]

/-- A nonempty string has positive length. -/
theorem length_pos_of_ne_empty (s : String) (h : s ≠ "") : 1 ≤ s.length := by
  rcases s with ⟨l⟩
  cases l with
  | nil => exact absurd rfl h
  | cons a t => simp [String.length]

/-! ## Claim theorems -/

/-- C1: the claim says Script construction rejects a declared total
duration that differs from the sum of section durations by more than 30
seconds.  The code never performs that check: pydantic validates fields in
declaration order, so when validate_total_duration runs, the sections
field is absent from values and the guard skips the comparison.  This
theorem evaluates construction at a declared total of 1000 seconds against
a single section of 1 second (difference 999 > 30): construction succeeds,
while the tolerance comparison itself, had it been reached with the
sections available, would have rejected the value. -/
theorem script_tolerance_check_skipped :
    Script.construct "t" 1000 [⟨"s1", "main", "c", 1, []⟩] =
      Except.ok ⟨"t", 1000, [⟨"s1", "main", "c", 1, []⟩]⟩ ∧
    validate_total_duration 1000 (some [⟨"s1", "main", "c", 1, []⟩]) =
      Except.error "Total duration does not match sum of section durations" :=
  ⟨rfl, rfl⟩

/-- C5: a GET /episodes lookup that yields an absent result produces
HTTP 404 with detail Episode not found — not a 500 and not a success
body. -/
theorem get_episode_absent_404 :
    get_episode_endpoint (Except.ok none) =
      HttpResult.httpError 404 "Episode not found" := rfl

/-- C7: each of the three health probes of GET /status is isolated: when
exactly one of them raises, its entry carries status unhealthy and the
error message, while the two others carry status healthy and their detail
payloads; the structured response is still produced.  Stated for each of
the three possible failing positions. -/
theorem status_isolates_failures (now d1 d2 e : String) :
    (service_status now (Except.error e) (Except.ok d1) (Except.ok d2) =
      { service := "tubecraft-generator"
        timestamp := now
        ollama := { status := "unhealthy", details := none, error := some e }
        database := { status := "healthy", details := some d1, error := none }
        tts := { status := "healthy", details := some d2, error := none } }) ∧
    (service_status now (Except.ok d1) (Except.error e) (Except.ok d2) =
      { service := "tubecraft-generator"
        timestamp := now
        ollama := { status := "healthy", details := some d1, error := none }
        database := { status := "unhealthy", details := none, error := some e }
        tts := { status := "healthy", details := some d2, error := none } }) ∧
    (service_status now (Except.ok d1) (Except.ok d2) (Except.error e) =
      { service := "tubecraft-generator"
        timestamp := now
        ollama := { status := "healthy", details := some d1, error := none }
        database := { status := "healthy", details := some d2, error := none }
        tts := { status := "unhealthy", details := none, error := some e } }) :=
  ⟨rfl, rfl, rfl⟩

/-- C10: the GET /health payload carries service tubecraft-generator,
status healthy and the hard-coded version string 1.0.0, whatever the
configured app_version is, while the add_service_info log processor stamps
the configured app_version on every log record; the handler is a function
of the current timestamp alone and consults no dependent service. -/
theorem health_version_fixed (s : Settings) (now : String)
    (d : List (String × String)) :
    (health_check now).version = "1.0.0" ∧
    (health_check now).service = "tubecraft-generator" ∧
    (health_check now).status = "healthy" ∧
    dictGet (add_service_info s d) "version" = some s.app_version := by
  refine ⟨rfl, rfl, rfl, ?_⟩
  simp [add_service_info, dictSet, dictGet]

set_option maxRecDepth 10000 in
/-- C4 counterexample: a title of 500 letters followed by one trailing
space is nonempty after trimming (500 characters, within 1..500), yet the
code rejects it, because the max_length=500 constraint is applied to the
raw value before trimming.  This refutes the claim that a title is
rejected exactly when it is empty after trimming. -/
theorem title_overlong_raw_rejected :
    pyStrip (String.mk (List.replicate 500 'a') ++ " ") ≠ "" ∧
    (pyStrip (String.mk (List.replicate 500 'a') ++ " ")).length = 500 ∧
    EpisodeRequest.validate_title (String.mk (List.replicate 500 'a') ++ " ") =
      Except.error "ensure this value has at most 500 characters" :=
  ⟨by decide, rfl, rfl⟩

/-- C4 (amended): a title is accepted exactly when its raw length is
between 1 and 500 characters and it is nonempty after trimming; every
whitespace-only title is rejected; the accepted value is the trimmed
title, whose length is between 1 and 500 characters. -/
theorem title_validation_characterization (t : String) :
    ((∃ s, EpisodeRequest.validate_title t = Except.ok s) ↔
      (1 ≤ t.length ∧ t.length ≤ 500 ∧ pyStrip t ≠ "")) ∧
    (∀ s, EpisodeRequest.validate_title t = Except.ok s →
      s = pyStrip t ∧ 1 ≤ s.length ∧ s.length ≤ 500) ∧
    (t.toList.all pyIsSpace = true →
      ∀ s, EpisodeRequest.validate_title t ≠ Except.ok s) := by
  have hchar : ∀ s, EpisodeRequest.validate_title t = Except.ok s →
      s = pyStrip t ∧ 1 ≤ t.length ∧ t.length ≤ 500 ∧ pyStrip t ≠ "" := by
    intro s hs
    unfold EpisodeRequest.validate_title at hs
    split at hs
    · exact absurd hs (by simp)
    · split at hs
      · exact absurd hs (by simp)
      · split at hs
        · exact absurd hs (by simp)
        · rename_i h1 h2 h3
          have hse : s = pyStrip t := by
            injection hs with h
            exact h.symm
          exact ⟨hse, by omega, by omega, h3⟩
  refine ⟨⟨?_, ?_⟩, ?_, ?_⟩
  · rintro ⟨s, hs⟩
    exact (hchar s hs).2
  · rintro ⟨h1, h2, h3⟩
    refine ⟨pyStrip t, ?_⟩
    unfold EpisodeRequest.validate_title
    rw [if_neg (by omega), if_neg (by omega), if_neg h3]
  · intro s hs
    rcases hchar s hs with ⟨hst, _h1, h500, hne⟩
    refine ⟨hst, ?_, ?_⟩
    · rw [hst]
      exact length_pos_of_ne_empty _ hne
    · rw [hst]
      exact le_trans (pyStrip_length_le t) h500
  · intro hall s hs
    exact (hchar s hs).2.2.2 (pyStrip_eq_empty_of_all_space t hall)

/-- C4 witness: the characterization applied at concrete titles, a
normal padded title that is accepted and a whitespace-only title that is
rejected. -/
theorem title_validation_characterization_witness :
    (∃ s, EpisodeRequest.validate_title " hi " = Except.ok s) ∧
    EpisodeRequest.validate_title "   " ≠ Except.ok " " :=
  ⟨(title_validation_characterization " hi ").1.mpr (by decide),
   (title_validation_characterization "   ").2.2 (by decide) " "⟩

/-- C8 counterexample: the configured level name basic_format is not a
recognized level name, yet it is not mapped to INFO (level 20): getattr
finds the BASIC_FORMAT attribute of the logging module, a format string,
and handing that string to logging.basicConfig then raises, so logging
configuration crashes on this name. -/
theorem log_level_basic_format_not_info :
    setup_log_level "basic_format" =
      PyValue.str "%(levelname)s:%(name)s:%(message)s" ∧
    setup_log_level "basic_format" ≠ PyValue.int 20 ∧
    setup_logging_level "basic_format" =
      Except.error "Unknown level: %(levelname)s:%(name)s:%(message)s" :=
  ⟨rfl, by decide, rfl⟩

/-- C8 (amended): a configured name whose upper-cased form is not an
attribute of the logging module is mapped to INFO (level 20) and
configuration does not crash; a name whose upper-cased form is a level
constant selects that level; but a name matching a non-level attribute of
the module case-insensitively (basic_format, _styles) selects that
attribute instead of a level and configuration then crashes. -/
theorem log_level_mapping (name : String) :
    (loggingModuleAttr (pyUpper name) = none →
      setup_logging_level name = Except.ok 20) ∧
    (∀ n, loggingModuleAttr (pyUpper name) = some (PyValue.int n) →
      setup_logging_level name = Except.ok n) := by
  constructor
  · intro h
    simp [setup_logging_level, setup_log_level, h, checkLevel]
  · intro n h
    simp [setup_logging_level, setup_log_level, h, checkLevel]

/-- C8 witness: the amended mapping applied at an unrecognized name and at
a mixed-case recognized level name. -/
theorem log_level_mapping_witness :
    setup_logging_level "bogus" = Except.ok 20 ∧
    setup_logging_level "Debug" = Except.ok 10 :=
  ⟨(log_level_mapping "bogus").1 (by decide),
   (log_level_mapping "Debug").2 10 (by decide)⟩

/-- Truncation bounds the length of a string. -/
theorem take_length_le (s : String) (n : Nat) : (s.take n).length ≤ n := by
  rw [String.take_eq]
  exact List.length_take_le n s.1

/-- C9: the request log of the log_request_response decorator is
independent of the value of any keyword argument named password (two
argument lists agreeing outside password entries produce the same event,
and no password entry survives into the event), every logged argument text
is truncated to at most 200 characters, and the decorator returns the
wrapped outcome unchanged, re-raising failures as they are. -/
theorem request_log_redaction {α : Type} (f a : String)
    (ks ks1 ks2 : List (String × String))
    (out : Except (String × String) α) :
    (ks1.filter (fun p => p.1 ≠ "password") =
        ks2.filter (fun p => p.1 ≠ "password") →
      log_request_args f a ks1 = log_request_args f a ks2) ∧
    (∀ p, p ∈ (log_request_args f a ks).kwargs →
      p.1 ≠ "password" ∧ p.2.length ≤ 200) ∧
    (log_request_args f a ks).args.length ≤ 200 ∧
    (log_request_response f a ks out).2 = out := by
  refine ⟨?_, ?_, ?_, ?_⟩
  · intro h
    simp only [ne_eq, decide_not] at h
    simp [log_request_args, h]
  · intro p hp
    simp only [log_request_args, List.mem_map] at hp
    rcases hp with ⟨q, hq, hqp⟩
    have hqk : q.1 ≠ "password" := (List.mem_filter.mp hq).2 |> of_decide_eq_true
    constructor
    · rw [← hqp]
      exact hqk
    · rw [← hqp]
      simpa using take_length_le q.2 200
  · simpa [log_request_args] using take_length_le a 200
  · cases out <;> rfl

/-- C9 witness: the redaction theorem applied at concrete argument lists
differing only in the password value, with the hypothesis discharged by
evaluation. -/
theorem request_log_redaction_witness :
    log_request_args "create_episode" "()"
        [("user", "bob"), ("password", "hunter2")] =
      log_request_args "create_episode" "()"
        [("user", "bob"), ("password", "hunter3")] :=
  (request_log_redaction "create_episode" "()" []
      [("user", "bob"), ("password", "hunter2")]
      [("user", "bob"), ("password", "hunter3")]
      (Except.ok ())).1 (by decide)

/-- C2 counterexample: when the script-generation call raises an exception
whose message is the empty string, the episode ends in status failed but
its error_message is the empty string, refuting the claim that the
error_message is always non-empty. -/
theorem pipeline_empty_error_message :
    (generate_episode_content
        (constEnv (Except.error "") (Except.ok "a.wav") (Except.ok "v.mp4"))
        "e1" ⟨"T", none, 15, ContentStyle.educational, 1⟩
        { status := GenerationStatus.queued }).record.status =
      GenerationStatus.failed ∧
    (generate_episode_content
        (constEnv (Except.error "") (Except.ok "a.wav") (Except.ok "v.mp4"))
        "e1" ⟨"T", none, 15, ContentStyle.educational, 1⟩
        { status := GenerationStatus.queued }).record.error_message =
      some "" :=
  ⟨rfl, rfl⟩

/-- C2 (amended): when the script-generation call raises, the pipeline
leaves the episode in status failed with error_message equal to the
exception message (hence non-empty exactly when that message is
non-empty), invokes neither the speech client nor the video client,
executes no step after the failing one, and rolls back no earlier status
write: the persistence trace is exactly the generating_script status write
followed by the fail_episode call. -/
theorem pipeline_script_failure_behavior (env : PipelineEnv) (epid : String)
    (request : EpisodeRequest) (r0 : EpisodeRecord) (e : String)
    (h : env.generate_script request.title (request.description.getD "")
      request.duration_minutes request.content_style = Except.error e) :
    generate_episode_content env epid request r0 =
      { record := { r0 with
          status := GenerationStatus.failed
          error_message := some e }
        dbOps := [DbOp.updateStatus GenerationStatus.generating_script,
                  DbOp.fail e]
        audioCalled := false
        videoCalled := false } := by
  simp [generate_episode_content, h, fail_episode, update_episode_status]

/-- C2 witness: the failure theorem applied to a concrete environment
whose script client raises with message boom. -/
theorem pipeline_script_failure_behavior_witness :
    generate_episode_content
        (constEnv (Except.error "boom") (Except.ok "a.wav") (Except.ok "v.mp4"))
        "e1" ⟨"T", none, 15, ContentStyle.educational, 1⟩
        { status := GenerationStatus.queued } =
      { record := { status := GenerationStatus.failed
                    error_message := some "boom" }
        dbOps := [DbOp.updateStatus GenerationStatus.generating_script,
                  DbOp.fail "boom"]
        audioCalled := false
        videoCalled := false } :=
  pipeline_script_failure_behavior _ _ _ _ _ rfl

/-- C3: when all three generation steps succeed, the pipeline completes
the episode with the audio path returned by the speech client, the video
path returned by the video client, and a duration equal to the
total_duration entry of the script payload, defaulting to 0 when the
script provides none; the final status is completed with both paths
recorded, and the persistence trace ends in the complete_episode call with
exactly those arguments. -/
theorem pipeline_success_completes (env : PipelineEnv) (epid : String)
    (request : EpisodeRequest) (r0 : EpisodeRecord) (script : ScriptPayload)
    (audio_path video_path : String)
    (h1 : env.generate_script request.title (request.description.getD "")
      request.duration_minutes request.content_style = Except.ok script)
    (h2 : env.generate_audio script epid request.voice_speed =
      Except.ok audio_path)
    (h3 : env.create_video audio_path script request.title epid =
      Except.ok video_path) :
    generate_episode_content env epid request r0 =
      { record := { r0 with
          status := GenerationStatus.completed
          script := some script
          audio_path := some audio_path
          video_path := some video_path
          duration_seconds := some (script.total_duration.getD 0) }
        dbOps := [DbOp.updateStatus GenerationStatus.generating_script,
                  DbOp.updateStatus GenerationStatus.generating_audio,
                  DbOp.updateScript script,
                  DbOp.updateStatus GenerationStatus.generating_video,
                  DbOp.complete audio_path video_path
                    (script.total_duration.getD 0)]
        audioCalled := true
        videoCalled := true } := by
  simp [generate_episode_content, h1, h2, h3, complete_episode,
    update_episode_status, update_episode_script]

/-- C3 witness: the success theorem applied to a concrete environment
whose script client yields a payload with total_duration 120 and whose
speech and video clients yield concrete paths. -/
theorem pipeline_success_completes_witness :
    generate_episode_content
        (constEnv (Except.ok ⟨some 120, "body"⟩) (Except.ok "a.wav")
          (Except.ok "v.mp4"))
        "e1" ⟨"T", none, 15, ContentStyle.educational, 1⟩
        { status := GenerationStatus.queued } =
      { record := { status := GenerationStatus.completed
                    script := some ⟨some 120, "body"⟩
                    audio_path := some "a.wav"
                    video_path := some "v.mp4"
                    duration_seconds := some 120 }
        dbOps := [DbOp.updateStatus GenerationStatus.generating_script,
                  DbOp.updateStatus GenerationStatus.generating_audio,
                  DbOp.updateScript ⟨some 120, "body"⟩,
                  DbOp.updateStatus GenerationStatus.generating_video,
                  DbOp.complete "a.wav" "v.mp4" 120]
        audioCalled := true
        videoCalled := true } :=
  pipeline_success_completes _ _ _ _ _ _ _ rfl rfl rfl

/-- C6: the POST /episodes handler creates the episode through the
persistence service with the request fields; on success it returns the new
episode id, its title, status queued and the creation timestamp, and
schedules the generation pipeline for that episode with the request; when
creation raises, it responds with HTTP 500 carrying the failure message
and schedules nothing. -/
theorem create_episode_behavior (request : EpisodeRequest)
    (db : String → Option String → ContentStyle → Int → Except String Episode) :
    (∀ ep, db request.title request.description request.content_style
        request.duration_minutes = Except.ok ep →
      create_episode_endpoint request db =
        { response := HttpResult.ok
            { id := ep.id
              title := ep.title
              status := GenerationStatus.queued
              created_at := ep.created_at }
          scheduledTask := some (ep.id, request) }) ∧
    (∀ e, db request.title request.description request.content_style
        request.duration_minutes = Except.error e →
      create_episode_endpoint request db =
        { response := HttpResult.httpError 500 e
          scheduledTask := none }) := by
  constructor
  · intro ep h
    simp [create_episode_endpoint, h]
  · intro e h
    simp [create_episode_endpoint, h]

/-- C6 witness: the creation theorem applied to a concrete request and a
persistence operation returning a concrete episode row. -/
theorem create_episode_behavior_witness :
    create_episode_endpoint ⟨"T", none, 15, ContentStyle.educational, 1⟩
        (constCreateDb (Except.ok
          ⟨"id1", "T", "queued", "t0", none, none, none, none, none⟩)) =
      { response := HttpResult.ok
          ⟨"id1", "T", GenerationStatus.queued, "t0", none, none, none, none, none⟩
        scheduledTask := some ("id1", ⟨"T", none, 15, ContentStyle.educational, 1⟩) } :=
  (create_episode_behavior _ _).1 _ rfl

end Tubecraft
